import Mathlib

/-!
Shallow embedding of the cspdk repository (src/cspdk/models.py and
src/cspdk/tech.py), a silicon-photonics PDK: passthrough S-matrix models,
a crossing model, a cross-section classifier and straight-waveguide
dispatcher, partial applications of external component models
(straight, bend, coupler, grating_coupler from gplugins.sax.models,
modelled here as uninterpreted call records since the claims are only
about which arguments they are invoked with), the layer map and layer
stack, and the exported `models` catalog.

Numeric values (floats in the source) are embedded as exact rationals.
Complex S-matrix amplitudes: the source only ever constructs 1, 1/sqrt(2)
and 1j/sqrt(2), so amplitudes live in the exact ring Q[sqrt 2, i],
represented by four rational coefficients.
-/

namespace Cspdk

/-- An amplitude a + b*sqrt(2) + (c + d*sqrt(2))*i in the exact ring
Q[sqrt 2, i]; this embeds the complex values jnp computes in models.py
(which only ever involve 1, 1/sqrt(2) and 1j/sqrt(2)). -/
structure Amp where
  a : ℚ
  b : ℚ
  c : ℚ
  d : ℚ
deriving DecidableEq, Repr

/-- The amplitude 1. -/
def Amp.one : Amp := ⟨1, 0, 0, 0⟩

instance : One Amp := ⟨Amp.one⟩

/-- The amplitude sqrt(2). -/
def Amp.sqrt2 : Amp := ⟨0, 1, 0, 0⟩

/-- The imaginary unit (Python `1j`). -/
def Amp.I : Amp := ⟨0, 0, 1, 0⟩

/-- Multiplication in Q[sqrt 2, i]:
(a+b√2+(c+d√2)i)·(a'+b'√2+(c'+d'√2)i), using √2·√2 = 2 and i·i = -1. -/
def Amp.mul (z w : Amp) : Amp :=
  ⟨z.a * w.a + 2 * z.b * w.b - z.c * w.c - 2 * z.d * w.d,
   z.a * w.b + z.b * w.a - z.c * w.d - z.d * w.c,
   z.a * w.c + 2 * z.b * w.d + z.c * w.a + 2 * z.d * w.b,
   z.a * w.d + z.b * w.c + z.c * w.b + z.d * w.a⟩

instance : Mul Amp := ⟨Amp.mul⟩

/-- The amplitude 1/sqrt(2) = sqrt(2)/2; `Amp.invSqrt2_mul_sqrt2` below
certifies that it is the multiplicative inverse of sqrt(2). -/
def Amp.invSqrt2 : Amp := ⟨0, 1/2, 0, 0⟩

/-- Division by sqrt(2) (the source's `/ jnp.sqrt(2)`), as multiplication
by the inverse of sqrt(2). -/
def Amp.divSqrt2 (z : Amp) : Amp := z * Amp.invSqrt2

/-- Squared magnitude |z|² = (a+b√2)² + (c+d√2)², an element u + v·√2 of
Q[sqrt 2] returned as the coefficient pair (u, v). -/
def Amp.normSq (z : Amp) : ℚ × ℚ :=
  (z.a ^ 2 + 2 * z.b ^ 2 + z.c ^ 2 + 2 * z.d ^ 2,
   2 * (z.a * z.b + z.c * z.d))

theorem Amp.invSqrt2_mul_sqrt2 : Amp.invSqrt2 * Amp.sqrt2 = 1 := by
  show Amp.mul Amp.invSqrt2 Amp.sqrt2 = Amp.one
  simp only [Amp.mul, Amp.invSqrt2, Amp.sqrt2, Amp.one, Amp.mk.injEq]
  norm_num

theorem Amp.one_mul_invSqrt2 : (1 : Amp) * Amp.invSqrt2 = Amp.invSqrt2 := by
  show Amp.mul Amp.one Amp.invSqrt2 = Amp.invSqrt2
  simp only [Amp.mul, Amp.invSqrt2, Amp.one, Amp.mk.injEq]
  norm_num

/-- A wavelength array (`jnp.asarray(wl)` for a 1-D input), embedded as a
list of exact rationals. -/
abbrev WlArray : Type := List ℚ

/-- `jnp.ones_like(wl)`: an all-ones array of the same shape as `wl`. -/
def onesLike (wl : List ℚ) : List Amp := wl.map (fun _ => (1 : Amp))

/-- An S-parameter dictionary: an association list from ordered port
pairs to per-wavelength amplitude arrays, with Python-dict semantics
(a later binding for the same key overwrites an earlier one). -/
abbrev SDict : Type := List ((String × String) × List Amp)

/-- Dictionary lookup with last-binding-wins semantics, matching how
Python dict literals and `{**a, **b}` merges resolve duplicate keys. -/
def dictGet (l : SDict) (k : String × String) : Option (List Amp) :=
  l.foldl (fun acc e => if e.1 = k then some e.2 else acc) none

/-- `sax.reciprocal`: extends an S-dict with the transposed entry
((p2, p1) ↦ v) for every entry ((p1, p2) ↦ v). -/
def reciprocal (d : SDict) : SDict :=
  d ++ d.map (fun e => ((e.1.2, e.1.1), e.2))

/-- models.py `_2port(p1, p2)` applied to a wavelength array: unit
transmission between the two ports, made reciprocal. -/
def _2port (p1 p2 : String) (wl : List ℚ) : SDict :=
  reciprocal [((p1, p2), onesLike wl)]

/-- models.py `_3port(p1, p2, p3)`: amplitude 1/sqrt(2) from p1 to each
of p2 and p3, made reciprocal. -/
def _3port (p1 p2 p3 : String) (wl : List ℚ) : SDict :=
  let thru := (onesLike wl).map Amp.divSqrt2
  reciprocal [((p1, p2), thru), ((p1, p3), thru)]

/-- models.py `_4port(p1, p2, p3, p4)`: through amplitude 1/sqrt(2) on
(p1,p4) and (p2,p3), cross amplitude 1j/sqrt(2) on (p1,p3) and (p2,p4),
made reciprocal. -/
def _4port (p1 p2 p3 p4 : String) (wl : List ℚ) : SDict :=
  let thru := (onesLike wl).map Amp.divSqrt2
  let cross := thru.map (fun x => Amp.I * x)
  reciprocal [((p1, p4), thru), ((p2, p3), thru),
              ((p1, p3), cross), ((p2, p4), cross)]

/-- models.py `_crossing`: unit transmission o1→o3 and o2→o4, made
reciprocal. -/
def _crossing (wl : List ℚ) : SDict :=
  let one := onesLike wl
  reciprocal [(("o1", "o3"), one), (("o2", "o4"), one)]

def crossing_so : List ℚ → SDict := _crossing

def crossing_rc : List ℚ → SDict := _crossing

def crossing_sc : List ℚ → SDict := _crossing

/-! ## tech.py: layer map and layer stack -/

/-- gdsfactory `Layer`: a (layer, datatype) pair of integers. -/
abbrev Layer : Type := Int × Int

/-- `nm = 1e-3` (both tech.py and models.py define it). -/
def nm : ℚ := 1 / 1000

/-- tech.py `LayerMapCornerstone` (a record of design layers). -/
structure LayerMapCornerstone where
  WG : Layer
  SLAB : Layer
  FLOORPLAN : Layer
  HEATER : Layer
  GRA : Layer
  LBL : Layer
  PAD : Layer
  NITRIDE : Layer
  NITRIDE_ETCH : Layer
deriving DecidableEq, Repr

/-- tech.py `LAYER = LayerMapCornerstone()`. -/
def LAYER : LayerMapCornerstone :=
  { WG := (3, 0), SLAB := (5, 0), FLOORPLAN := (99, 0), HEATER := (39, 0),
    GRA := (6, 0), LBL := (100, 0), PAD := (41, 0), NITRIDE := (203, 0),
    NITRIDE_ETCH := (204, 0) }

/-- gdsfactory `LayerLevel`, restricted to the fields tech.py passes:
`sidewall_angle` and `width_to_z` are `none` when the call omits them,
and `info={"mesh_order": k}` is embedded as `meshOrder`. -/
structure LayerLevel where
  layer : Layer
  thickness : ℚ
  zmin : ℚ
  material : String
  meshOrder : ℕ
  sidewallAngle : Option ℚ
  widthToZ : Option ℚ
deriving DecidableEq, Repr

/-- The `layers` dict built by `get_layer_stack`, with its five keys
(core, nitride, nitride_etch, heater, metal) as fields. -/
structure LayerStack where
  core : LayerLevel
  nitride : LayerLevel
  nitride_etch : LayerLevel
  heater_level : LayerLevel
  metal : LayerLevel
deriving DecidableEq, Repr

/-- tech.py `get_layer_stack`. Python defaults (applied explicitly at the
call sites below): thickness_wg = 220*nm, thickness_nitride = 300*nm,
zmin_heater = 1.1, thickness_heater = 700*nm, zmin_metal = 1.1,
thickness_metal = 700*nm. -/
def get_layer_stack (thickness_wg thickness_nitride zmin_heater
    thickness_heater zmin_metal thickness_metal : ℚ) : LayerStack :=
  { core := { layer := LAYER.WG, thickness := thickness_wg, zmin := 0,
              material := "si", meshOrder := 1, sidewallAngle := some 10,
              widthToZ := some 0.5 },
    nitride := { layer := LAYER.NITRIDE, thickness := thickness_nitride,
                 zmin := 0, material := "sin", meshOrder := 2,
                 sidewallAngle := some 10, widthToZ := some 0.5 },
    nitride_etch := { layer := LAYER.NITRIDE_ETCH,
                      thickness := thickness_nitride, zmin := 0,
                      material := "sin", meshOrder := 1,
                      sidewallAngle := some 10, widthToZ := some 0.5 },
    heater_level := { layer := LAYER.HEATER, thickness := thickness_heater,
                      zmin := zmin_heater, material := "TiN", meshOrder := 1,
                      sidewallAngle := none, widthToZ := none },
    metal := { layer := LAYER.PAD, thickness := thickness_metal,
               zmin := zmin_metal + thickness_metal, material := "Aluminum",
               meshOrder := 2, sidewallAngle := none, widthToZ := none } }

/-- tech.py `LAYER_STACK = get_layer_stack()` (all defaults). -/
def LAYER_STACK : LayerStack :=
  get_layer_stack (220 * nm) (300 * nm) 1.1 (700 * nm) 1.1 (700 * nm)

/-! ## models.py: external component models as uninterpreted call records -/

/-- The argument record of a call to the external
gplugins.sax.models `straight` model. -/
structure StraightArgs where
  wl : ℚ
  length : ℚ
  loss : ℚ
  wl0 : ℚ
  neff : ℚ
  ng : ℚ
deriving DecidableEq, Repr

/-- The external `straight` model, embedded as an uninterpreted call
record: the claims concern only the arguments it is invoked with. -/
def straight (wl length loss wl0 neff ng : ℚ) : StraightArgs :=
  ⟨wl, length, loss, wl0, neff, ng⟩

/-- models.py `straight_sc = partial(straight, wl0=1.55, neff=2.4, ng=4.2)`. -/
def straight_sc (wl length loss : ℚ) : StraightArgs :=
  straight wl length loss 1.55 2.4 4.2

/-- models.py `straight_so = partial(straight, wl0=1.31, neff=2.4, ng=4.2)`. -/
def straight_so (wl length loss : ℚ) : StraightArgs :=
  straight wl length loss 1.31 2.4 4.2

/-- models.py `straight_rc`. -/
def straight_rc (wl length loss : ℚ) : StraightArgs :=
  straight wl length loss 1.55 2.4 4.2

/-- models.py `straight_ro`. -/
def straight_ro (wl length loss : ℚ) : StraightArgs :=
  straight wl length loss 1.31 2.4 4.2

/-- models.py `straight_nc`. -/
def straight_nc (wl length loss : ℚ) : StraightArgs :=
  straight wl length loss 1.55 2.4 4.2

/-- models.py `straight_no`. -/
def straight_no (wl length loss : ℚ) : StraightArgs :=
  straight wl length loss 1.31 2.4 4.2

/-! ## models.py: cross-section classifier and straight dispatcher -/

/-- models.py `_layer_eq`: componentwise integer equality of two layers. -/
def _layer_eq (layer1 layer2 : Layer) : Bool :=
  layer1.1 == layer2.1 && layer1.2 == layer2.2

/-- One entry of a cross-section dictionary's `sections` list. -/
structure Section where
  layer : Layer
  width : ℚ
deriving DecidableEq, Repr

/-- A cross-section dictionary (`cross_section["sections"]`). -/
structure CrossSectionDict where
  sections : List Section
deriving DecidableEq, Repr

/-- The `cross_section` argument: either a string or a dictionary. -/
inductive CrossSection where
  | str (s : String)
  | dict (d : CrossSectionDict)
deriving DecidableEq, Repr

/-- The message of the `ValueError` raised by `_check_cross_section`. -/
def unknownCrossSectionMsg : String := "ValueError: Unknown cross section"

/-- The message of the `ValueError` raised by `_straight`'s final else. -/
def invalidCrossSectionMsg : String := "ValueError: Invalid cross section"

/-- The `IndexError` Python raises on `sections[0]` of an empty list. -/
def indexErrorMsg : String := "IndexError: list index out of range"

/-- models.py `_check_cross_section`: a string passes through unchanged;
a dictionary is classified by its first section's layer and width. -/
def _check_cross_section : CrossSection → Except String String
  | .str s => .ok s
  | .dict cs =>
    match cs.sections.head? with
    | none => .error indexErrorMsg
    | some s0 =>
      if _layer_eq s0.layer LAYER.WG then
        if cs.sections.length > 1 then
          if s0.width = 0.45 then .ok "xs_rc"
          else if s0.width = 0.40 then .ok "xs_ro"
          else .error unknownCrossSectionMsg
        else if s0.width = 0.45 then .ok "xs_sc"
        else if s0.width = 0.40 then .ok "xs_so"
        else .error unknownCrossSectionMsg
      else if _layer_eq s0.layer LAYER.NITRIDE then
        if s0.width = 1.20 then .ok "xs_nc"
        else if s0.width = 0.95 then .ok "xs_no"
        else .error unknownCrossSectionMsg
      else .error unknownCrossSectionMsg

/-- models.py `_straight`: dispatches on `_check_cross_section`.  The
source re-evaluates the pure `_check_cross_section` in every `elif`;
since it is deterministic this single-evaluation match is equivalent,
including error propagation (an exception in the first call aborts the
chain). -/
def _straight (wl length loss : ℚ) (cross_section : CrossSection) :
    Except String StraightArgs :=
  match _check_cross_section cross_section with
  | .error e => .error e
  | .ok n =>
    if n = "xs_sc" then .ok (straight_sc wl length loss)
    else if n = "xs_so" then .ok (straight_so wl length loss)
    else if n = "xs_rc" then .ok (straight_rc wl length loss)
    else if n = "xs_ro" then .ok (straight_ro wl length loss)
    else if n = "xs_nc" then .ok (straight_nc wl length loss)
    else if n = "xs_no" then .ok (straight_no wl length loss)
    else .error invalidCrossSectionMsg

/-! ## models.py: bends, transitions, MMIs, grating couplers, dummies -/

/-- The argument record of a call to the external `bend` model
(only `loss` is ever fixed by this repository). -/
structure BendCall where
  loss : ℚ
deriving DecidableEq, Repr

/-- The external `bend` model as an uninterpreted call record. -/
def bend (loss : ℚ) : BendCall := ⟨loss⟩

/-- models.py `_bend_euler = partial(bend, loss=0.03)`. -/
def _bend_euler : BendCall := bend 0.03

def bend_sc : BendCall := bend 0.03

def bend_so : BendCall := bend 0.03

def bend_rc : BendCall := bend 0.03

def bend_ro : BendCall := bend 0.03

def bend_nc : BendCall := bend 0.03

def bend_no : BendCall := bend 0.03

/-- models.py `trans_sc_rc10 = _2port("o1", "o2")`. -/
def trans_sc_rc10 : List ℚ → SDict := _2port "o1" "o2"

def trans_sc_rc20 : List ℚ → SDict := _2port "o1" "o2"

def trans_sc_rc50 : List ℚ → SDict := _2port "o1" "o2"

/-- The external gplugins.sax.models `coupler` model, uninterpreted
(models.py binds every MMI name directly to it). -/
inductive CouplerModel where
  | external
deriving DecidableEq, Repr

def coupler : CouplerModel := CouplerModel.external

def mmi1x2_rc : CouplerModel := coupler

def mmi2x2_rc : CouplerModel := coupler

def mmi1x2_sc : CouplerModel := coupler

def mmi2x2_sc : CouplerModel := coupler

def mmi1x2_ro : CouplerModel := coupler

def mmi2x2_ro : CouplerModel := coupler

def mmi1x2_so : CouplerModel := coupler

def mmi2x2_so : CouplerModel := coupler

def mmi1x2_no : CouplerModel := coupler

def mmi2x2_no : CouplerModel := coupler

def mmi1x2_nc : CouplerModel := coupler

def mmi2x2_nc : CouplerModel := coupler

/-- The argument record of a call to the external `grating_coupler`
model. -/
structure GratingCouplerCall where
  loss : ℚ
  bandwidth : ℚ
  wl0 : ℚ
deriving DecidableEq, Repr

/-- The external `grating_coupler` model as an uninterpreted call
record. -/
def grating_coupler (loss bandwidth wl0 : ℚ) : GratingCouplerCall :=
  ⟨loss, bandwidth, wl0⟩

/-- models.py `_gco = partial(grating_coupler, loss=6, bandwidth=35*nm, wl0=1.31)`. -/
def _gco : GratingCouplerCall := grating_coupler 6 (35 * nm) 1.31

/-- models.py `_gcc = partial(grating_coupler, loss=6, bandwidth=35*nm, wl0=1.55)`. -/
def _gcc : GratingCouplerCall := grating_coupler 6 (35 * nm) 1.55

def gc_rectangular_so : GratingCouplerCall := _gco

def gc_rectangular_ro : GratingCouplerCall := _gco

def gc_rectangular_no : GratingCouplerCall := _gco

def gc_rectangular_sc : GratingCouplerCall := _gcc

def gc_rectangular_rc : GratingCouplerCall := _gcc

def gc_rectangular_nc : GratingCouplerCall := _gcc

/-- models.py `pad = _2port("o1", "o2")` (dummy model). -/
def pad : List ℚ → SDict := _2port "o1" "o2"

/-- models.py `heater = _2port("o1", "o2")` (dummy model). -/
def heater : List ℚ → SDict := _2port "o1" "o2"

/-! ## models.py: the exported catalog -/

/-- The value type of the `models` dict: each constructor wraps one of
the (differently typed) model objects bound in models.py. -/
inductive Model where
  | sfun (f : List ℚ → SDict)
  | straightVariant (f : ℚ → ℚ → ℚ → StraightArgs)
  | dispatcher (f : ℚ → ℚ → ℚ → CrossSection → Except String StraightArgs)
  | bendModel (b : BendCall)
  | couplerModel (c : CouplerModel)
  | gcModel (g : GratingCouplerCall)

/-- models.py `models = dict(...)`, in source order. -/
def models : List (String × Model) :=
  [("_2port", Model.sfun (_2port "o1" "o2")),
   ("_3port", Model.sfun (_3port "o1" "o2" "o3")),
   ("_4port", Model.sfun (_4port "o1" "o2" "o3" "o4")),
   ("straight", Model.dispatcher _straight),
   ("straight_sc", Model.straightVariant straight_sc),
   ("straight_so", Model.straightVariant straight_so),
   ("straight_rc", Model.straightVariant straight_rc),
   ("straight_ro", Model.straightVariant straight_ro),
   ("straight_nc", Model.straightVariant straight_nc),
   ("straight_no", Model.straightVariant straight_no),
   ("bend_euler", Model.bendModel _bend_euler),
   ("bend_sc", Model.bendModel bend_sc),
   ("bend_so", Model.bendModel bend_so),
   ("bend_rc", Model.bendModel bend_rc),
   ("bend_ro", Model.bendModel bend_ro),
   ("bend_nc", Model.bendModel bend_nc),
   ("bend_no", Model.bendModel bend_no),
   ("trans_sc_rc10", Model.sfun trans_sc_rc10),
   ("trans_sc_rc20", Model.sfun trans_sc_rc20),
   ("trans_sc_rc50", Model.sfun trans_sc_rc50),
   ("mmi1x2_rc", Model.couplerModel mmi1x2_rc),
   ("mmi2x2_rc", Model.couplerModel mmi2x2_rc),
   ("mmi1x2_sc", Model.couplerModel mmi1x2_sc),
   ("mmi2x2_sc", Model.couplerModel mmi2x2_sc),
   ("mmi1x2_ro", Model.couplerModel mmi1x2_ro),
   ("mmi2x2_ro", Model.couplerModel mmi2x2_ro),
   ("mmi1x2_so", Model.couplerModel mmi1x2_so),
   ("mmi2x2_so", Model.couplerModel mmi2x2_so),
   ("mmi1x2_no", Model.couplerModel mmi1x2_no),
   ("mmi2x2_no", Model.couplerModel mmi2x2_no),
   ("mmi1x2_nc", Model.couplerModel mmi1x2_nc),
   ("mmi2x2_nc", Model.couplerModel mmi2x2_nc),
   ("gc_rectangular_so", Model.gcModel gc_rectangular_so),
   ("gc_rectangular_ro", Model.gcModel gc_rectangular_ro),
   ("gc_rectangular_no", Model.gcModel gc_rectangular_no),
   ("gc_rectangular_sc", Model.gcModel gc_rectangular_sc),
   ("gc_rectangular_rc", Model.gcModel gc_rectangular_rc),
   ("gc_rectangular_nc", Model.gcModel gc_rectangular_nc),
   ("crossing_so", Model.sfun crossing_so),
   ("crossing_rc", Model.sfun crossing_rc),
   ("crossing_sc", Model.sfun crossing_sc),
   ("pad", Model.sfun pad),
   ("heater", Model.sfun heater)]

/-! ## Helper lemmas -/

/-- `jnp.ones_like(wl)` is a length-preserving constant-one array. -/
theorem onesLike_eq (wl : List ℚ) :
    onesLike wl = List.replicate wl.length 1 := by
  induction wl with
  | nil => rfl
  | cons x xs ih => simp [onesLike, List.replicate]

/-- The `thru` array of `_3port`/`_4port` is constantly 1/sqrt(2). -/
theorem thruList_eq (wl : List ℚ) :
    (onesLike wl).map Amp.divSqrt2 =
      List.replicate wl.length Amp.invSqrt2 := by
  induction wl with
  | nil => rfl
  | cons x xs ih =>
    simp [onesLike, List.replicate, Amp.divSqrt2, Amp.one_mul_invSqrt2]

/-- The `cross` array of `_4port` is constantly 1j/sqrt(2). -/
theorem crossList_eq (wl : List ℚ) :
    ((onesLike wl).map Amp.divSqrt2).map (fun x => Amp.I * x) =
      List.replicate wl.length (Amp.I * Amp.invSqrt2) := by
  rw [thruList_eq, List.map_replicate]

theorem swap_ne {p q a b : String} (h : (p, q) ≠ (b, a)) :
    (a, b) ≠ (q, p) := by
  intro he
  apply h
  rw [Prod.ext_iff] at he ⊢
  exact ⟨he.2.symm, he.1.symm⟩

theorem I_mul_invSqrt2_eq : Amp.I * Amp.invSqrt2 = ⟨0, 0, 0, 1/2⟩ := by
  show Amp.mul Amp.I Amp.invSqrt2 = _
  simp only [Amp.mul, Amp.I, Amp.invSqrt2, Amp.mk.injEq]
  norm_num

/-! ## Claim theorems -/

/-- C1: `_check_cross_section` classifies a cross-section dictionary by
its first section's layer and width: on layer WG, width 0.45 gives
"xs_rc" with more than one section and "xs_sc" otherwise, width 0.40
gives "xs_ro" with more than one section and "xs_so" otherwise; on layer
NITRIDE width 1.20 gives "xs_nc" and width 0.95 gives "xs_no"; every
other (layer, width) combination raises ValueError. -/
theorem c1_check_cross_section (s0 : Section) (rest : List Section) :
    (_layer_eq s0.layer LAYER.WG = true →
      _check_cross_section (.dict ⟨s0 :: rest⟩) =
        (if s0.width = 0.45 then
          .ok (if rest.length > 0 then "xs_rc" else "xs_sc")
        else if s0.width = 0.40 then
          .ok (if rest.length > 0 then "xs_ro" else "xs_so")
        else .error unknownCrossSectionMsg)) ∧
    (_layer_eq s0.layer LAYER.NITRIDE = true →
      _check_cross_section (.dict ⟨s0 :: rest⟩) =
        (if s0.width = 1.20 then .ok "xs_nc"
        else if s0.width = 0.95 then .ok "xs_no"
        else .error unknownCrossSectionMsg)) ∧
    (_layer_eq s0.layer LAYER.WG = false →
      _layer_eq s0.layer LAYER.NITRIDE = false →
      _check_cross_section (.dict ⟨s0 :: rest⟩) =
        .error unknownCrossSectionMsg) := by
  refine ⟨fun hWG => ?_, fun hN => ?_, fun hWG hN => ?_⟩
  · have hN : _layer_eq s0.layer LAYER.NITRIDE = false := by
      simp only [_layer_eq, LAYER] at hWG ⊢
      simp only [Bool.and_eq_true, beq_iff_eq] at hWG
      simp [hWG.1]
    simp only [_check_cross_section, List.head?, hWG, List.length_cons,
      if_true]
    rcases rest with _ | ⟨r, rs⟩ <;> split_ifs <;> simp_all
  · have hWG : _layer_eq s0.layer LAYER.WG = false := by
      simp only [_layer_eq, LAYER] at hN ⊢
      simp only [Bool.and_eq_true, beq_iff_eq] at hN
      simp [hN.1]
    simp only [_check_cross_section, List.head?, hWG, hN]
    split_ifs <;> simp_all
  · simp [_check_cross_section, List.head?, hWG, hN]

theorem c1_check_cross_section_witness :
    _check_cross_section (.dict ⟨[⟨(3, 0), 0.45⟩]⟩) = .ok "xs_sc" := by
  have h := (c1_check_cross_section ⟨(3, 0), 0.45⟩ []).1 (by decide)
  simpa using h

/-- C2: `_straight` with a cross_section equal to one of the six
waveguide names returns the external straight model invoked with those
arguments and neff = 2.4, ng = 4.2, with wl0 = 1.55 for the C-band
variants (xs_sc, xs_rc, xs_nc) and wl0 = 1.31 for the O-band variants
(xs_so, xs_ro, xs_no). -/
theorem c2_straight_dispatch (wl length loss : ℚ) :
    _straight wl length loss (.str "xs_sc") =
      .ok (straight wl length loss 1.55 2.4 4.2) ∧
    _straight wl length loss (.str "xs_rc") =
      .ok (straight wl length loss 1.55 2.4 4.2) ∧
    _straight wl length loss (.str "xs_nc") =
      .ok (straight wl length loss 1.55 2.4 4.2) ∧
    _straight wl length loss (.str "xs_so") =
      .ok (straight wl length loss 1.31 2.4 4.2) ∧
    _straight wl length loss (.str "xs_ro") =
      .ok (straight wl length loss 1.31 2.4 4.2) ∧
    _straight wl length loss (.str "xs_no") =
      .ok (straight wl length loss 1.31 2.4 4.2) :=
  ⟨rfl, rfl, rfl, rfl, rfl, rfl⟩

/-- C3: every grating-coupler model is the external grating_coupler
invoked with loss = 6 and bandwidth = 35 nm; the O-band variants
(so, ro, no) use wl0 = 1.31 and the C-band variants (sc, rc, nc) use
wl0 = 1.55. -/
theorem c3_grating_couplers :
    gc_rectangular_so = grating_coupler 6 (35 * nm) 1.31 ∧
    gc_rectangular_ro = grating_coupler 6 (35 * nm) 1.31 ∧
    gc_rectangular_no = grating_coupler 6 (35 * nm) 1.31 ∧
    gc_rectangular_sc = grating_coupler 6 (35 * nm) 1.55 ∧
    gc_rectangular_rc = grating_coupler 6 (35 * nm) 1.55 ∧
    gc_rectangular_nc = grating_coupler 6 (35 * nm) 1.55 :=
  ⟨rfl, rfl, rfl, rfl, rfl, rfl⟩

/-- C4: the exported `models` dict contains a behavioral model for each
advertised name: the straight, bend, mmi, grating-coupler and crossing
families plus the transitions, pad and heater passthroughs. -/
theorem c4_models_catalog :
    (["straight", "straight_sc", "straight_so", "straight_rc",
      "straight_ro", "straight_nc", "straight_no",
      "bend_euler", "bend_sc", "bend_so", "bend_rc", "bend_ro",
      "bend_nc", "bend_no",
      "mmi1x2_rc", "mmi2x2_rc", "mmi1x2_sc", "mmi2x2_sc",
      "mmi1x2_ro", "mmi2x2_ro", "mmi1x2_so", "mmi2x2_so",
      "mmi1x2_no", "mmi2x2_no", "mmi1x2_nc", "mmi2x2_nc",
      "gc_rectangular_so", "gc_rectangular_ro", "gc_rectangular_no",
      "gc_rectangular_sc", "gc_rectangular_rc", "gc_rectangular_nc",
      "crossing_so", "crossing_rc", "crossing_sc",
      "trans_sc_rc10", "trans_sc_rc20", "trans_sc_rc50",
      "pad", "heater"].all
      (fun n => (List.lookup n models).isSome)) = true := by
  rfl

/-- C5: `get_layer_stack` assigns each design layer its physical
thickness, material and z-position: at the Python defaults the core
level (layer WG) has thickness 220 nm, zmin 0 and material "si", the
nitride level (layer NITRIDE) has thickness 300 nm, zmin 0 and material
"sin", the heater level (layer HEATER) has thickness 700 nm, zmin 1.1
and material "TiN", and the metal level (layer PAD) has thickness
700 nm, material "Aluminum" and zmin equal to
zmin_metal + thickness_metal. -/
theorem c5_layer_stack (zmin_metal thickness_metal : ℚ) :
    LAYER_STACK.core.layer = LAYER.WG ∧
    LAYER_STACK.core.thickness = 220 * nm ∧
    LAYER_STACK.core.zmin = 0 ∧
    LAYER_STACK.core.material = "si" ∧
    LAYER_STACK.nitride.layer = LAYER.NITRIDE ∧
    LAYER_STACK.nitride.thickness = 300 * nm ∧
    LAYER_STACK.nitride.zmin = 0 ∧
    LAYER_STACK.nitride.material = "sin" ∧
    LAYER_STACK.heater_level.layer = LAYER.HEATER ∧
    LAYER_STACK.heater_level.thickness = 700 * nm ∧
    LAYER_STACK.heater_level.zmin = 1.1 ∧
    LAYER_STACK.heater_level.material = "TiN" ∧
    LAYER_STACK.metal.layer = LAYER.PAD ∧
    LAYER_STACK.metal.thickness = 700 * nm ∧
    LAYER_STACK.metal.material = "Aluminum" ∧
    LAYER_STACK.metal.zmin = 1.1 + 700 * nm ∧
    (get_layer_stack (220 * nm) (300 * nm) 1.1 (700 * nm)
        zmin_metal thickness_metal).metal.zmin =
      zmin_metal + thickness_metal :=
  ⟨rfl, rfl, rfl, rfl, rfl, rfl, rfl, rfl, rfl, rfl, rfl, rfl, rfl, rfl,
   rfl, rfl, rfl⟩

/-- C9: the per-cross-section variants are pairwise identical despite
their distinct names: the three C-band straights agree, the three O-band
straights agree, all six bend variants equal `_bend_euler` (= bend with
loss 0.03), all twelve MMI variants equal the external coupler model,
and the three transitions, pad and heater all equal the same 2-port
passthrough. -/
theorem c9_variant_identities :
    straight_sc = straight_rc ∧ straight_rc = straight_nc ∧
    straight_so = straight_ro ∧ straight_ro = straight_no ∧
    bend_sc = _bend_euler ∧ bend_so = _bend_euler ∧
    bend_rc = _bend_euler ∧ bend_ro = _bend_euler ∧
    bend_nc = _bend_euler ∧ bend_no = _bend_euler ∧
    _bend_euler = bend 0.03 ∧
    mmi1x2_rc = coupler ∧ mmi2x2_rc = coupler ∧
    mmi1x2_sc = coupler ∧ mmi2x2_sc = coupler ∧
    mmi1x2_ro = coupler ∧ mmi2x2_ro = coupler ∧
    mmi1x2_so = coupler ∧ mmi2x2_so = coupler ∧
    mmi1x2_no = coupler ∧ mmi2x2_no = coupler ∧
    mmi1x2_nc = coupler ∧ mmi2x2_nc = coupler ∧
    trans_sc_rc10 = _2port "o1" "o2" ∧ trans_sc_rc20 = _2port "o1" "o2" ∧
    trans_sc_rc50 = _2port "o1" "o2" ∧ pad = _2port "o1" "o2" ∧
    heater = _2port "o1" "o2" :=
  ⟨rfl, rfl, rfl, rfl, rfl, rfl, rfl, rfl, rfl, rfl, rfl, rfl, rfl, rfl,
   rfl, rfl, rfl, rfl, rfl, rfl, rfl, rfl, rfl, rfl, rfl, rfl, rfl, rfl⟩

/-- C6: the crossing model (shared by crossing_so, crossing_rc and
crossing_sc) has unit transmission from o1 to o3 and from o2 to o4, the
two transposed entries implied by reciprocity, and no entry coupling any
other port pair. -/
theorem c6_crossing (wl : List ℚ) (p q : String) :
    dictGet (_crossing wl) ("o1", "o3") =
      some (List.replicate wl.length 1) ∧
    dictGet (_crossing wl) ("o2", "o4") =
      some (List.replicate wl.length 1) ∧
    dictGet (_crossing wl) ("o3", "o1") =
      some (List.replicate wl.length 1) ∧
    dictGet (_crossing wl) ("o4", "o2") =
      some (List.replicate wl.length 1) ∧
    ((p, q) ∉ [(("o1" : String), ("o3" : String)), ("o2", "o4"),
        ("o3", "o1"), ("o4", "o2")] →
      dictGet (_crossing wl) (p, q) = none) ∧
    crossing_so = _crossing ∧ crossing_rc = _crossing ∧
    crossing_sc = _crossing := by
  refine ⟨?_, ?_, ?_, ?_, fun h => ?_, rfl, rfl, rfl⟩
  · rw [← onesLike_eq]; rfl
  · rw [← onesLike_eq]; rfl
  · rw [← onesLike_eq]; rfl
  · rw [← onesLike_eq]; rfl
  · simp only [List.mem_cons, List.not_mem_nil, or_false, not_or] at h
    obtain ⟨h1, h2, h3, h4⟩ := h
    simp [dictGet, _crossing, reciprocal, Ne.symm h1, Ne.symm h2,
      Ne.symm h3, Ne.symm h4]

theorem c6_crossing_witness : dictGet (_crossing []) ("o1", "o2") = none :=
  (c6_crossing [] "o1" "o2").2.2.2.2.1 (by decide)

/-- C7: the passthrough models map a wavelength array to S-matrix
entries of the same shape: every entry of the _2port, _3port and _4port
S-dicts has the length of wl; the _2port entry between its two ports is
constantly 1, and the _3port entries from p1 to p2 and from p1 to p3 are
constantly 1/sqrt(2). -/
theorem c7_passthrough_shapes (wl : List ℚ) :
    (_2port "o1" "o2" wl).map (fun e => e.2.length) =
      List.replicate 2 wl.length ∧
    (_3port "o1" "o2" "o3" wl).map (fun e => e.2.length) =
      List.replicate 4 wl.length ∧
    (_4port "o1" "o2" "o3" "o4" wl).map (fun e => e.2.length) =
      List.replicate 8 wl.length ∧
    dictGet (_2port "o1" "o2" wl) ("o1", "o2") =
      some (List.replicate wl.length 1) ∧
    dictGet (_3port "o1" "o2" "o3" wl) ("o1", "o2") =
      some (List.replicate wl.length Amp.invSqrt2) ∧
    dictGet (_3port "o1" "o2" "o3" wl) ("o1", "o3") =
      some (List.replicate wl.length Amp.invSqrt2) := by
  refine ⟨?_, ?_, ?_, ?_, ?_, ?_⟩
  · simp [_2port, reciprocal, onesLike, List.replicate]
  · simp [_3port, reciprocal, onesLike, List.replicate]
  · simp [_4port, reciprocal, onesLike, List.replicate]
  · rw [← onesLike_eq]; rfl
  · rw [← thruList_eq]; rfl
  · rw [← thruList_eq]; rfl

/-- C8: a string cross_section passes through `_check_cross_section`
unchanged; `_straight` on a string succeeds exactly when the string is
one of the six waveguide names and otherwise raises the ValueError of
its final else branch; and that branch is unreachable for dictionary
inputs, since on dictionaries `_check_cross_section` only ever returns
one of the six names (or raises first). -/
theorem c8_string_cross_section (s : String) (wl length loss : ℚ)
    (d : CrossSectionDict) (n : String) :
    _check_cross_section (.str s) = .ok s ∧
    ((∃ r, _straight wl length loss (.str s) = .ok r) ↔
      s ∈ ["xs_sc", "xs_so", "xs_rc", "xs_ro", "xs_nc", "xs_no"]) ∧
    (s ∉ ["xs_sc", "xs_so", "xs_rc", "xs_ro", "xs_nc", "xs_no"] →
      _straight wl length loss (.str s) = .error invalidCrossSectionMsg) ∧
    (_check_cross_section (.dict d) = .ok n →
      n ∈ ["xs_sc", "xs_so", "xs_rc", "xs_ro", "xs_nc", "xs_no"]) := by
  refine ⟨rfl, ?_, fun h => ?_, fun h => ?_⟩
  · simp only [_straight, _check_cross_section]
    split_ifs <;> simp_all
  · simp only [List.mem_cons, List.not_mem_nil, or_false, not_or] at h
    obtain ⟨h1, h2, h3, h4, h5, h6⟩ := h
    simp [_straight, _check_cross_section, h1, h2, h3, h4, h5, h6]
  · obtain ⟨sections⟩ := d
    rcases sections with _ | ⟨s0, rest⟩
    · simp [_check_cross_section] at h
    · simp only [_check_cross_section, List.head?] at h
      split_ifs at h <;> simp_all

theorem c8_string_cross_section_witness :
    _straight 1.55 10 0 (.str "xs_zz") = .error invalidCrossSectionMsg :=
  (c8_string_cross_section "xs_zz" 1.55 10 0 ⟨[]⟩ "x").2.2.1 (by decide)

/-- C10: the 4-port passthrough is reciprocal and power-conserving: its
S-dict is symmetric in the port pair, the through amplitude is
1/sqrt(2) (the inverse of sqrt(2)), the cross amplitude is
1j/sqrt(2), and the squared magnitudes of through and cross amplitudes
sum to 1. -/
theorem c10_fourport_reciprocal (wl : List ℚ) (p q : String) :
    dictGet (_4port "o1" "o2" "o3" "o4" wl) (p, q) =
      dictGet (_4port "o1" "o2" "o3" "o4" wl) (q, p) ∧
    dictGet (_4port "o1" "o2" "o3" "o4" wl) ("o1", "o4") =
      some (List.replicate wl.length Amp.invSqrt2) ∧
    dictGet (_4port "o1" "o2" "o3" "o4" wl) ("o2", "o3") =
      some (List.replicate wl.length Amp.invSqrt2) ∧
    dictGet (_4port "o1" "o2" "o3" "o4" wl) ("o1", "o3") =
      some (List.replicate wl.length (Amp.I * Amp.invSqrt2)) ∧
    dictGet (_4port "o1" "o2" "o3" "o4" wl) ("o2", "o4") =
      some (List.replicate wl.length (Amp.I * Amp.invSqrt2)) ∧
    Amp.invSqrt2 * Amp.sqrt2 = 1 ∧
    (Amp.normSq Amp.invSqrt2).1 +
      (Amp.normSq (Amp.I * Amp.invSqrt2)).1 = 1 ∧
    (Amp.normSq Amp.invSqrt2).2 +
      (Amp.normSq (Amp.I * Amp.invSqrt2)).2 = 0 := by
  refine ⟨?_, ?_, ?_, ?_, ?_, Amp.invSqrt2_mul_sqrt2, ?_, ?_⟩
  · by_cases h1 : (p, q) = ("o1", "o4")
    · rw [Prod.ext_iff] at h1; obtain ⟨rfl, rfl⟩ := h1; rfl
    by_cases h2 : (p, q) = ("o4", "o1")
    · rw [Prod.ext_iff] at h2; obtain ⟨rfl, rfl⟩ := h2; rfl
    by_cases h3 : (p, q) = ("o2", "o3")
    · rw [Prod.ext_iff] at h3; obtain ⟨rfl, rfl⟩ := h3; rfl
    by_cases h4 : (p, q) = ("o3", "o2")
    · rw [Prod.ext_iff] at h4; obtain ⟨rfl, rfl⟩ := h4; rfl
    by_cases h5 : (p, q) = ("o1", "o3")
    · rw [Prod.ext_iff] at h5; obtain ⟨rfl, rfl⟩ := h5; rfl
    by_cases h6 : (p, q) = ("o3", "o1")
    · rw [Prod.ext_iff] at h6; obtain ⟨rfl, rfl⟩ := h6; rfl
    by_cases h7 : (p, q) = ("o2", "o4")
    · rw [Prod.ext_iff] at h7; obtain ⟨rfl, rfl⟩ := h7; rfl
    by_cases h8 : (p, q) = ("o4", "o2")
    · rw [Prod.ext_iff] at h8; obtain ⟨rfl, rfl⟩ := h8; rfl
    simp [dictGet, _4port, reciprocal,
      Ne.symm h1, Ne.symm h2, Ne.symm h3, Ne.symm h4,
      Ne.symm h5, Ne.symm h6, Ne.symm h7, Ne.symm h8,
      swap_ne h1, swap_ne h2, swap_ne h3, swap_ne h4,
      swap_ne h5, swap_ne h6, swap_ne h7, swap_ne h8]
  · rw [← thruList_eq]; rfl
  · rw [← thruList_eq]; rfl
  · rw [← crossList_eq]; rfl
  · rw [← crossList_eq]; rfl
  · rw [I_mul_invSqrt2_eq]
    simp only [Amp.normSq, Amp.invSqrt2]
    norm_num
  · rw [I_mul_invSqrt2_eq]
    simp only [Amp.normSq, Amp.invSqrt2]
    norm_num

end Cspdk
